import Mathlib

/-!
Shallow embedding of `imaginairy/utils.py` (helper routines of an
image-generation pipeline): cache-directory resolution, the weights-file
download cache, image resizing and conversion, mask binarization, and the
two normalization monkey-patch context managers.

Python strings are Lean `String`s, environment variables are a partial map
`String → Option String`, byte values are `Nat`, exact pixel arithmetic is
done in `ℚ` (all comparisons in the source are decided far from any
floating-point rounding boundary for byte inputs), and the effectful
download path is modelled by explicit oracles plus an event trace.
-/

/-- POSIX `os.path.join` on two components, as used by the source:
an absolute second component replaces the first, an empty or
slash-terminated first component is concatenated directly. -/
def pathJoin (a b : String) : String :=
  if b.data.head? = some '/' then b
  else if a = "" then b
  else if a.data.getLast? = some '/' then a ++ b
  else a ++ "/" ++ b

/-- Python `url.split("/")[-1]`: the substring of `url` after its last
`'/'` (the whole string when there is no `'/'`, empty when `url` ends in
`'/'`). -/
def url_basename (url : String) : String :=
  ⟨(url.data.reverse.takeWhile (fun c => c ≠ '/')).reverse⟩

/-- `get_cache_dir` from `imaginairy/utils.py`.  `env` models `os.getenv`
(`none` = unset); `moduleDir` models `os.path.dirname(__file__)`.
The source checks `XDG_CACHE_HOME` against `None`, then falls back to
`HOME` only when it is truthy (set and non-empty). -/
def get_cache_dir (env : String → Option String) (moduleDir : String) : String :=
  let xdg_cache_home := env "XDG_CACHE_HOME"
  let xdg_cache_home :=
    match xdg_cache_home with
    | some v => some v
    | none =>
      match env "HOME" with
      | some user_home => if user_home ≠ "" then some (pathJoin user_home ".cache") else none
      | none => none
  match xdg_cache_home with
  | some v => pathJoin (pathJoin v "imaginairy") "weights"
  | none => pathJoin moduleDir ".cached-downloads"

/-- Python exceptions relevant to `get_cached_url_path`, classified by
whether they are `OSError` subclasses (in Python 3, `IOError = OSError`
and `requests` exceptions subclass `IOError`). -/
inductive PyExc where
  | osError
  | permissionError
  | connectionError
  | valueError
  | keyError
  deriving DecidableEq, Repr

/-- Whether the exception is an `OSError` subclass, hence caught by the
`except OSError` clause in `get_cached_url_path`. -/
def PyExc.isOSError : PyExc → Bool
  | .osError => true
  | .permissionError => true
  | .connectionError => true
  | .valueError => false
  | .keyError => false

/-- Observable I/O events performed by `get_cached_url_path`:
an HTTP GET of a URL, or a file write of a byte string to a path. -/
inductive IOEvent where
  | httpGet (url : String)
  | fileWrite (path : String) (content : List Nat)
  deriving DecidableEq, Repr

/-- The effectful context of `get_cached_url_path`: the framework lookup
`transformers.cached_path`, the filesystem `os.path.exists` view,
`requests.get` (returning the response body), and `open(...).write`. -/
structure World where
  cachedPath : String → Except PyExc String
  fileExists : String → Bool
  httpGet : String → Except PyExc (List Nat)
  fileWrite : String → List Nat → Except PyExc Unit

/-- The world after a file has appeared at `path` (e.g. after a
successful download); all oracles other than existence are unchanged. -/
def World.withFile (w : World) (path : String) : World :=
  { w with fileExists := fun q => q = path || w.fileExists q }

/-- `get_cached_url_path` from `imaginairy/utils.py`, returning the
result (or the propagated exception) together with the trace of I/O
events it performed.  `try: return cached_path(url) except OSError: pass`,
then `filename = url.split("/")[-1]`, `dest = get_cache_dir()`,
`os.makedirs(dest, exist_ok=True)` (modelled as infallible), a hit check
via `os.path.exists`, and on a miss a single `requests.get` whose body is
written verbatim to `dest_path`. -/
def get_cached_url_path (w : World) (env : String → Option String)
    (moduleDir url : String) : Except PyExc String × List IOEvent :=
  match w.cachedPath url with
  | .ok p => (.ok p, [])
  | .error e =>
    if e.isOSError then
      let filename := url_basename url
      let dest := get_cache_dir env moduleDir
      let dest_path := pathJoin dest filename
      if w.fileExists dest_path then (.ok dest_path, [])
      else
        match w.httpGet url with
        | .error e2 => (.error e2, [.httpGet url])
        | .ok content =>
          match w.fileWrite dest_path content with
          | .error e3 => (.error e3, [.httpGet url])
          | .ok _ => (.ok dest_path, [.httpGet url, .fileWrite dest_path content])
    else (.error e, [])

/-- A Pillow image reduced to its size, the only attribute
`pillow_fit_image_within` inspects (after `convert("RGB")`, which
preserves size). -/
structure PILImage where
  width : Nat
  height : Nat
  deriving DecidableEq, Repr

/-- `pillow_fit_image_within` from `imaginairy/utils.py` with its default
limits explicit: `resize_ratio = min(max_width / w, max_height / h)` in
exact rationals, `int(...)` truncation (the values are nonnegative, so
truncation is the floor), then `x - x % 64` on each dimension, and a
resize of the image to `(w, h)`. -/
def pillow_fit_image_within (image : PILImage) (max_height : Nat := 512)
    (max_width : Nat := 512) : PILImage × Nat × Nat :=
  let w := image.width
  let h := image.height
  let resize_ratio : ℚ := min ((max_width : ℚ) / w) ((max_height : ℚ) / h)
  let w := (Rat.floor ((w : ℚ) * resize_ratio)).toNat
  let h := (Rat.floor ((h : ℚ) * resize_ratio)).toNat
  let w := w - w % 64
  let h := h - h % 64
  (⟨w, h⟩, w, h)

/-- One RGB pixel: three 8-bit channel values. -/
abbrev RGBPixel := Nat × Nat × Nat

/-- An RGB image as its row-major pixel grid, the view `np.array` takes
of a Pillow RGB image: `H` rows of `W` pixels of 3 channels. -/
abbrev RGBImage := List (List RGBPixel)

/-- Well-formedness of the `np.array` view of an `H × W` Pillow RGB
image: `H` rows, each of `W` pixels, every channel value an 8-bit byte. -/
def RGBImageWF (img : RGBImage) (H W : Nat) : Prop :=
  img.length = H ∧ (∀ row ∈ img, row.length = W) ∧
    ∀ row ∈ img, ∀ p ∈ row, p.1 ≤ 255 ∧ p.2.1 ≤ 255 ∧ p.2.2 ≤ 255

/-- `pillow_img_to_torch_image` from `imaginairy/utils.py`:
`np.array(image) / 255.0`, `image[None].transpose(0, 3, 1, 2)` (from
`[1, H, W, C]` to `[1, C, H, W]`), then `2.0 * image - 1.0` elementwise,
in exact rationals.  The result is the nested-list view of the tensor. -/
def pillow_img_to_torch_image (img : RGBImage) : List (List (List (List ℚ))) :=
  let chan : (RGBPixel → Nat) → List (List ℚ) := fun f =>
    img.map (fun row => row.map (fun p => 2 * ((f p : ℚ) / 255) - 1))
  [[chan (fun p => p.1), chan (fun p => p.2.1), chan (fun p => p.2.2)]]

/-- A grayscale (`"L"`-mode) image as its row-major grid of byte values. -/
abbrev GrayImage := List (List Nat)

/-- The binarization threshold chosen at the top of `expand_mask`:
`0.95` when `size < 0`, else `0.05`. -/
def expand_threshold (size : Int) : ℚ :=
  if size < 0 then (0.95 : ℚ) else (0.05 : ℚ)

/-- The per-pixel effect of the numpy pipeline in `expand_mask` on a
blurred grayscale byte `p`: `p / 255.0` is compared with the threshold,
set to `0` below it and `1` at or above it, then scaled back by `255`
and cast to `uint8`.  For byte inputs the exact rational comparison
agrees with the float32 one: no value `p / 255` falls within rounding
distance of `0.05` or `0.95`. -/
def expand_mask_pixel (size : Int) (p : Nat) : Nat :=
  if (p : ℚ) / 255 < expand_threshold size then 0 else 255

/-- `expand_mask` from `imaginairy/utils.py`, with `convert("L")` and
`ImageFilter.GaussianBlur(size)` as oracles (framework calls the module
does not define): the blurred grayscale image is binarized pixelwise by
`expand_mask_pixel`.  `log_img` has no effect on the result. -/
def expand_mask {α : Type} (convertL : α → GrayImage)
    (gaussianBlur : Int → GrayImage → GrayImage)
    (mask_image : α) (size : Int) : GrayImage :=
  let mask_image := convertL mask_image
  let mask_image := gaussianBlur size mask_image
  mask_image.map (fun row => row.map (expand_mask_pixel size))

/-- The pixel of a grid at row `i`, column `j`, when both are in range. -/
def pix2D (g : GrayImage) (i j : Nat) : Option Nat :=
  (g[i]?).bind (fun row => row[j]?)

/-- The mutable slots of `torch.nn.functional` that the two context
managers patch, over an abstract type `F` of function objects. -/
structure TorchFunctional (F : Type) where
  layer_norm : F
  group_norm : F

/-- The `fix_torch_nn_layer_norm` context manager from
`imaginairy/utils.py`, as a state transformer: save
`functional.layer_norm`, install `_fixed_layer_norm`, run the body (which
may itself mutate the state and may raise, modelled by an `Except`
result), and in the `finally` clause restore the saved object. -/
def fix_torch_nn_layer_norm {F α : Type} (fixedLayerNorm : F)
    (body : TorchFunctional F → Except PyExc α × TorchFunctional F)
    (s : TorchFunctional F) : Except PyExc α × TorchFunctional F :=
  let orig_function := s.layer_norm
  let r := body { s with layer_norm := fixedLayerNorm }
  (r.1, { r.2 with layer_norm := orig_function })

/-- The `fix_torch_group_norm` context manager from
`imaginairy/utils.py`: save `functional.group_norm`, install
`_group_norm_wrapper` (a closure over the saved original, modelled by
`wrap` applied to it), run the body, and in the `finally` clause restore
the saved object. -/
def fix_torch_group_norm {F α : Type} (wrap : F → F)
    (body : TorchFunctional F → Except PyExc α × TorchFunctional F)
    (s : TorchFunctional F) : Except PyExc α × TorchFunctional F :=
  let orig_group_norm := s.group_norm
  let r := body { s with group_norm := wrap orig_group_norm }
  (r.1, { r.2 with group_norm := orig_group_norm })

/-- The names of the top-level `def` statements of `imaginairy/utils.py`,
in source order (lines 23-225): three of them are decorated
(`@lru_cache`, `@contextmanager`) and one is private, but all are
functions defined at module top level.  `_group_norm_wrapper` is nested
inside `fix_torch_group_norm` and is not top-level. -/
def utils_top_level_functions : List String :=
  ["get_device", "get_device_name", "log_params", "instantiate_from_config",
   "get_obj_from_str", "platform_appropriate_autocast", "_fixed_layer_norm",
   "fix_torch_nn_layer_norm", "fix_torch_group_norm", "expand_mask",
   "img_path_to_torch_image", "pillow_fit_image_within",
   "pillow_img_to_torch_image", "get_cache_dir", "get_cached_url_path"]

/-! ## Theorems -/

/-- C1: for every environment, `get_cache_dir` returns
`XDG_CACHE_HOME`/imaginairy/weights when `XDG_CACHE_HOME` is set;
otherwise `HOME`/.cache/imaginairy/weights when `HOME` is set and
non-empty; otherwise `.cached-downloads` inside the module's directory. -/
theorem get_cache_dir_resolution (env : String → Option String) (moduleDir : String) :
    (∀ v, env "XDG_CACHE_HOME" = some v →
      get_cache_dir env moduleDir = pathJoin (pathJoin v "imaginairy") "weights") ∧
    (∀ u, env "XDG_CACHE_HOME" = none → env "HOME" = some u → u ≠ "" →
      get_cache_dir env moduleDir =
        pathJoin (pathJoin (pathJoin u ".cache") "imaginairy") "weights") ∧
    (env "XDG_CACHE_HOME" = none → (env "HOME" = none ∨ env "HOME" = some "") →
      get_cache_dir env moduleDir = pathJoin moduleDir ".cached-downloads") := by
  refine ⟨?_, ?_, ?_⟩
  · intro v hv
    simp [get_cache_dir, hv]
  · intro u hx hu hne
    simp [get_cache_dir, hx, hu, hne]
  · intro hx hh
    rcases hh with hh | hh <;> simp [get_cache_dir, hx, hh]

/-- Witness for C1: the three branches at concrete environments. -/
theorem get_cache_dir_resolution_w :
    get_cache_dir (fun k => if k = "XDG_CACHE_HOME" then some "/xdg" else none) "/mod"
      = "/xdg/imaginairy/weights" ∧
    get_cache_dir (fun k => if k = "HOME" then some "/home/u" else none) "/mod"
      = "/home/u/.cache/imaginairy/weights" ∧
    get_cache_dir (fun _ => none) "/mod" = "/mod/.cached-downloads" := by
  refine ⟨?_, ?_, ?_⟩
  · exact ((get_cache_dir_resolution
      (fun k => if k = "XDG_CACHE_HOME" then some "/xdg" else none) "/mod").1
      "/xdg" (by decide)).trans (by decide)
  · exact ((get_cache_dir_resolution
      (fun k => if k = "HOME" then some "/home/u" else none) "/mod").2.1
      "/home/u" (by decide) (by decide) (by decide)).trans (by decide)
  · exact ((get_cache_dir_resolution (fun _ => none) "/mod").2.2
      (by decide) (Or.inl (by decide))).trans (by decide)

/-- C2 (amended): when `cached_path` fails with an `OSError`, the
destination file `<cache_dir>/<basename(url)>` does not already exist,
and the GET and the write succeed, `get_cached_url_path` performs exactly
one HTTP GET of the URL, writes the response body verbatim (no checksum
verification, no retry) to that destination path, and returns it. -/
theorem get_cached_url_path_download_fallback (w : World)
    (env : String → Option String) (moduleDir url : String)
    (e : PyExc) (content : List Nat)
    (hcp : w.cachedPath url = .error e) (hos : e.isOSError = true)
    (hmiss : w.fileExists (pathJoin (get_cache_dir env moduleDir) (url_basename url)) = false)
    (hget : w.httpGet url = .ok content)
    (hwrite : w.fileWrite (pathJoin (get_cache_dir env moduleDir) (url_basename url)) content
      = .ok ()) :
    get_cached_url_path w env moduleDir url =
      (.ok (pathJoin (get_cache_dir env moduleDir) (url_basename url)),
       [.httpGet url,
        .fileWrite (pathJoin (get_cache_dir env moduleDir) (url_basename url)) content]) := by
  simp [get_cached_url_path, hcp, hos, hmiss, hget, hwrite]

/-- A world in which the framework lookup raises `OSError` and the
destination file for `model.bin` is already present in the cache
directory `/c/imaginairy/weights`. -/
def hitWorld : World :=
  { cachedPath := fun _ => .error .osError
    fileExists := fun p => p = "/c/imaginairy/weights/model.bin"
    httpGet := fun _ => .ok [7, 7]
    fileWrite := fun _ _ => .ok () }

/-- The environment with only `XDG_CACHE_HOME=/c` set. -/
def envXdgC : String → Option String :=
  fun k => if k = "XDG_CACHE_HOME" then some "/c" else none

/-- Counterexample to C2 as stated: there is a URL for which
`cached_path` fails, yet `get_cached_url_path` performs no HTTP GET at
all (the trace is empty) because the destination file already exists —
it does not "fall back to a single HTTP GET" for every such URL. -/
theorem get_cached_url_path_download_fallback_cex :
    hitWorld.cachedPath "http://h/model.bin" = .error PyExc.osError ∧
    get_cached_url_path hitWorld envXdgC "/m" "http://h/model.bin"
      = (.ok "/c/imaginairy/weights/model.bin", []) := by
  constructor
  · rfl
  · rfl

/-- Witness for C2's amended theorem: a concrete miss is downloaded. -/
theorem get_cached_url_path_download_fallback_w :
    get_cached_url_path
      { cachedPath := fun _ => .error .osError
        fileExists := fun _ => false
        httpGet := fun _ => .ok [7, 7]
        fileWrite := fun _ _ => .ok () } envXdgC "/m" "http://h/model.bin"
      = (.ok "/c/imaginairy/weights/model.bin",
         [.httpGet "http://h/model.bin",
          .fileWrite "/c/imaginairy/weights/model.bin" [7, 7]]) := by
  exact (get_cached_url_path_download_fallback
    { cachedPath := fun _ => .error .osError
      fileExists := fun _ => false
      httpGet := fun _ => .ok [7, 7]
      fileWrite := fun _ _ => .ok () } envXdgC "/m" "http://h/model.bin"
    PyExc.osError [7, 7] rfl rfl rfl rfl rfl).trans rfl

/-- C3: `get_cached_url_path` recovers from exactly one kind of failure.
An `OSError` from `cached_path` triggers the manual-download fallback
(hit or download); any other exception from `cached_path`, a failure of
the GET request, and a failure of the file write all propagate unhandled
to the caller with no recovery (and no further I/O after the failure). -/
theorem get_cached_url_path_error_handling (w : World)
    (env : String → Option String) (moduleDir url : String)
    (e e2 e3 : PyExc) (content : List Nat) :
    (w.cachedPath url = .error e → e.isOSError = false →
      get_cached_url_path w env moduleDir url = (.error e, [])) ∧
    (w.cachedPath url = .error e → e.isOSError = true →
      w.fileExists (pathJoin (get_cache_dir env moduleDir) (url_basename url)) = true →
      get_cached_url_path w env moduleDir url =
        (.ok (pathJoin (get_cache_dir env moduleDir) (url_basename url)), [])) ∧
    (w.cachedPath url = .error e → e.isOSError = true →
      w.fileExists (pathJoin (get_cache_dir env moduleDir) (url_basename url)) = false →
      w.httpGet url = .error e2 →
      get_cached_url_path w env moduleDir url = (.error e2, [.httpGet url])) ∧
    (w.cachedPath url = .error e → e.isOSError = true →
      w.fileExists (pathJoin (get_cache_dir env moduleDir) (url_basename url)) = false →
      w.httpGet url = .ok content →
      w.fileWrite (pathJoin (get_cache_dir env moduleDir) (url_basename url)) content
        = .error e3 →
      get_cached_url_path w env moduleDir url = (.error e3, [.httpGet url])) := by
  refine ⟨?_, ?_, ?_, ?_⟩
  · intro hcp hos
    simp [get_cached_url_path, hcp, hos]
  · intro hcp hos hhit
    simp [get_cached_url_path, hcp, hos, hhit]
  · intro hcp hos hmiss hget
    simp [get_cached_url_path, hcp, hos, hmiss, hget]
  · intro hcp hos hmiss hget hwrite
    simp [get_cached_url_path, hcp, hos, hmiss, hget, hwrite]

/-- Witness for C3: a `ValueError` from `cached_path` propagates with no
fallback, and a `ConnectionError` from the GET propagates after the one
GET attempt. -/
theorem get_cached_url_path_error_handling_w :
    get_cached_url_path
      { cachedPath := fun _ => .error .valueError
        fileExists := fun _ => false
        httpGet := fun _ => .ok [7, 7]
        fileWrite := fun _ _ => .ok () } envXdgC "/m" "http://h/model.bin"
      = (.error PyExc.valueError, []) ∧
    get_cached_url_path
      { cachedPath := fun _ => .error .osError
        fileExists := fun _ => false
        httpGet := fun _ => .error .connectionError
        fileWrite := fun _ _ => .ok () } envXdgC "/m" "http://h/model.bin"
      = (.error PyExc.connectionError, [.httpGet "http://h/model.bin"]) := by
  constructor
  · exact (get_cached_url_path_error_handling
      { cachedPath := fun _ => .error .valueError
        fileExists := fun _ => false
        httpGet := fun _ => .ok [7, 7]
        fileWrite := fun _ _ => .ok () } envXdgC "/m" "http://h/model.bin"
      PyExc.valueError PyExc.osError PyExc.osError []).1 rfl rfl
  · exact (get_cached_url_path_error_handling
      { cachedPath := fun _ => .error .osError
        fileExists := fun _ => false
        httpGet := fun _ => .error .connectionError
        fileWrite := fun _ _ => .ok () } envXdgC "/m" "http://h/model.bin"
      PyExc.osError PyExc.connectionError PyExc.osError []).2.2.1 rfl rfl rfl rfl

/-- C10: `get_cached_url_path` is idempotent on a cache hit.  When the
destination file `<cache_dir>/<basename(url)>` already exists (the
`cached_path` lookup having failed with `OSError`), the function returns
that path with no HTTP request and no file write; in particular, after a
first call that downloaded the file, a second call in the resulting
world returns the same path with no further I/O. -/
theorem get_cached_url_path_hit_idempotent (w : World)
    (env : String → Option String) (moduleDir url : String)
    (e : PyExc) (content : List Nat) :
    (w.cachedPath url = .error e → e.isOSError = true →
      w.fileExists (pathJoin (get_cache_dir env moduleDir) (url_basename url)) = true →
      get_cached_url_path w env moduleDir url =
        (.ok (pathJoin (get_cache_dir env moduleDir) (url_basename url)), [])) ∧
    (w.cachedPath url = .error e → e.isOSError = true →
      w.fileExists (pathJoin (get_cache_dir env moduleDir) (url_basename url)) = false →
      w.httpGet url = .ok content →
      w.fileWrite (pathJoin (get_cache_dir env moduleDir) (url_basename url)) content
        = .ok () →
      (get_cached_url_path w env moduleDir url).1 =
        .ok (pathJoin (get_cache_dir env moduleDir) (url_basename url)) ∧
      get_cached_url_path
          (w.withFile (pathJoin (get_cache_dir env moduleDir) (url_basename url)))
          env moduleDir url =
        (.ok (pathJoin (get_cache_dir env moduleDir) (url_basename url)), [])) := by
  constructor
  · intro hcp hos hhit
    simp [get_cached_url_path, hcp, hos, hhit]
  · intro hcp hos hmiss hget hwrite
    constructor
    · simp [get_cached_url_path, hcp, hos, hmiss, hget, hwrite]
    · simp [get_cached_url_path, World.withFile, hcp, hos]

/-- Witness for C10: a concrete hit returns the path with an empty
trace, and a second call after a concrete download does the same. -/
theorem get_cached_url_path_hit_idempotent_w :
    get_cached_url_path hitWorld envXdgC "/m" "http://h/model.bin"
      = (.ok "/c/imaginairy/weights/model.bin", []) ∧
    get_cached_url_path
      (World.withFile
        { cachedPath := fun _ => .error .osError
          fileExists := fun _ => false
          httpGet := fun _ => .ok [7, 7]
          fileWrite := fun _ _ => .ok () } "/c/imaginairy/weights/model.bin")
      envXdgC "/m" "http://h/model.bin"
      = (.ok "/c/imaginairy/weights/model.bin", []) := by
  constructor
  · exact ((get_cached_url_path_hit_idempotent hitWorld envXdgC "/m" "http://h/model.bin"
      PyExc.osError []).1 rfl rfl rfl).trans rfl
  · exact (((get_cached_url_path_hit_idempotent
      { cachedPath := fun _ => .error .osError
        fileExists := fun _ => false
        httpGet := fun _ => .ok [7, 7]
        fileWrite := fun _ _ => .ok () } envXdgC "/m" "http://h/model.bin"
      PyExc.osError [7, 7]).2 rfl rfl rfl rfl rfl).2).trans rfl

/-- C4: for every input image with positive width and height, under the
default limits `max_height = 512` and `max_width = 512`, the `w` and `h`
returned by `pillow_fit_image_within` are multiples of 64 and the
returned image has size `(w, h)`. -/
theorem pillow_fit_image_within_multiple_of_64 (image : PILImage)
    (_hw : 0 < image.width) (_hh : 0 < image.height) :
    (pillow_fit_image_within image).2.1 % 64 = 0 ∧
    (pillow_fit_image_within image).2.2 % 64 = 0 ∧
    (pillow_fit_image_within image).1 =
      ⟨(pillow_fit_image_within image).2.1, (pillow_fit_image_within image).2.2⟩ := by
  simp only [pillow_fit_image_within]
  exact ⟨by omega, by omega, trivial⟩

/-- Witness for C4: the property at a concrete 300 × 200 image. -/
theorem pillow_fit_image_within_multiple_of_64_w :
    (pillow_fit_image_within ⟨300, 200⟩).2.1 % 64 = 0 ∧
    (pillow_fit_image_within ⟨300, 200⟩).2.2 % 64 = 0 ∧
    (pillow_fit_image_within ⟨300, 200⟩).1 =
      ⟨(pillow_fit_image_within ⟨300, 200⟩).2.1,
       (pillow_fit_image_within ⟨300, 200⟩).2.2⟩ :=
  pillow_fit_image_within_multiple_of_64 ⟨300, 200⟩ (by decide) (by decide)

/-- C5: for every mask image and blur size (the `convert("L")` and
`GaussianBlur` framework calls abstracted as oracles), every pixel of the
image returned by `expand_mask` is 0 or 255, and the pixel at any
position is 0 exactly when the blurred grayscale value there, scaled to
0–1, is below the threshold, and 255 otherwise. -/
theorem expand_mask_binarizes {α : Type} (convertL : α → GrayImage)
    (gaussianBlur : Int → GrayImage → GrayImage) (mask_image : α) (size : Int)
    (i j p : Nat) :
    (∀ row ∈ expand_mask convertL gaussianBlur mask_image size, ∀ q ∈ row,
      q = 0 ∨ q = 255) ∧
    (pix2D (gaussianBlur size (convertL mask_image)) i j = some p →
      pix2D (expand_mask convertL gaussianBlur mask_image size) i j =
        some (if (p : ℚ) / 255 < expand_threshold size then 0 else 255)) := by
  constructor
  · intro row hrow q hq
    rcases List.mem_map.mp hrow with ⟨r, _, rfl⟩
    rcases List.mem_map.mp hq with ⟨c, _, rfl⟩
    unfold expand_mask_pixel
    split
    · exact Or.inl rfl
    · exact Or.inr rfl
  · intro hp
    unfold pix2D at hp ⊢
    cases hrow : (gaussianBlur size (convertL mask_image))[i]? with
    | none => rw [hrow] at hp; exact Option.noConfusion hp
    | some row =>
      rw [hrow] at hp
      have hp' : row[j]? = some p := hp
      simp [expand_mask, List.getElem?_map, hrow, hp', expand_mask_pixel]

/-- Witness for C5: a concrete mask through identity oracles; the pixel
with blurred value 10 binarizes to 0 under the positive-size threshold. -/
theorem expand_mask_binarizes_w :
    (∀ row ∈ expand_mask (id : GrayImage → GrayImage) (fun _ g => g) [[10, 200]] 3,
      ∀ q ∈ row, q = 0 ∨ q = 255) ∧
    pix2D (expand_mask (id : GrayImage → GrayImage) (fun _ g => g) [[10, 200]] 3) 0 0 =
      some 0 := by
  constructor
  · exact (expand_mask_binarizes id (fun _ g => g) [[10, 200]] 3 0 0 10).1
  · have h : ((10 : Nat) : ℚ) / 255 < expand_threshold 3 := by
      norm_num [expand_threshold]
    exact ((expand_mask_binarizes id (fun _ g => g) [[10, 200]] 3 0 0 10).2 rfl).trans
      (by rw [if_pos h])

/-- C8: the binarization threshold of `expand_mask` depends only on the
sign of `size` — 0.95 (= 19/20) for `size < 0` and 0.05 (= 1/20) for
`size ≥ 0` — and a blurred pixel maps to 255 exactly when its scaled
value is at least the threshold. -/
theorem expand_mask_threshold_sign (size : Int) (p : Nat) :
    (size < 0 → expand_threshold size = 19 / 20) ∧
    (0 ≤ size → expand_threshold size = 1 / 20) ∧
    (expand_mask_pixel size p = 255 ↔ expand_threshold size ≤ (p : ℚ) / 255) := by
  refine ⟨?_, ?_, ?_⟩
  · intro h
    rw [expand_threshold, if_pos h]
    norm_num
  · intro h
    rw [expand_threshold, if_neg (by omega)]
    norm_num
  · unfold expand_mask_pixel
    split
    · next h => exact iff_of_false (by decide) (not_le.mpr h)
    · next h => exact iff_of_true rfl (not_lt.mp h)

/-- Witness for C8: the two threshold values at concrete sizes, and the
binarization of the concrete pixel 250 under a negative size. -/
theorem expand_mask_threshold_sign_w :
    expand_threshold (-3) = 19 / 20 ∧
    expand_threshold 3 = 1 / 20 ∧
    (expand_mask_pixel (-3) 250 = 255 ↔ expand_threshold (-3) ≤ ((250 : Nat) : ℚ) / 255) :=
  ⟨(expand_mask_threshold_sign (-3) 250).1 (by decide),
   (expand_mask_threshold_sign 3 250).2.1 (by decide),
   (expand_mask_threshold_sign (-3) 250).2.2⟩

/-- Shape and range of one channel plane produced by
`pillow_img_to_torch_image`. -/
lemma chan_shape_range (img : RGBImage) (H W : Nat) (f : RGBPixel → Nat)
    (hH : img.length = H) (hW : ∀ row ∈ img, row.length = W)
    (hf : ∀ row ∈ img, ∀ p ∈ row, f p ≤ 255) :
    (img.map (fun row => row.map (fun p => 2 * ((f p : ℚ) / 255) - 1))).length = H ∧
    ∀ row ∈ img.map (fun row => row.map (fun p => 2 * ((f p : ℚ) / 255) - 1)),
      row.length = W ∧ ∀ x ∈ row, -1 ≤ x ∧ x ≤ 1 := by
  constructor
  · simpa using hH
  · intro row hrow
    rcases List.mem_map.mp hrow with ⟨r, hr, rfl⟩
    constructor
    · simpa using hW r hr
    · intro x hx
      rcases List.mem_map.mp hx with ⟨p, hp, rfl⟩
      have hc : (f p : ℚ) ≤ 255 := by exact_mod_cast hf r hr p hp
      have h0 : (0 : ℚ) ≤ (f p : ℚ) / 255 := by positivity
      have h1 : (f p : ℚ) / 255 ≤ 1 := by
        rw [div_le_one (by norm_num : (0 : ℚ) < 255)]
        exact hc
      constructor
      · linarith
      · linarith

/-- C6: for every well-formed `H × W` RGB image,
`pillow_img_to_torch_image` returns a tensor of shape `[1, 3, H, W]`
whose every element lies in the range -1..1 (each element being
`2 * (p / 255) - 1` for the corresponding 8-bit channel value `p`). -/
theorem pillow_img_to_torch_image_shape_range (img : RGBImage) (H W : Nat)
    (hwf : RGBImageWF img H W) :
    (pillow_img_to_torch_image img).length = 1 ∧
    ∀ t ∈ pillow_img_to_torch_image img, t.length = 3 ∧
      ∀ ch ∈ t, ch.length = H ∧
        ∀ row ∈ ch, row.length = W ∧
          ∀ x ∈ row, -1 ≤ x ∧ x ≤ 1 := by
  obtain ⟨hH, hW, hpx⟩ := hwf
  refine ⟨rfl, ?_⟩
  intro t ht
  simp only [pillow_img_to_torch_image, List.mem_singleton] at ht
  subst ht
  refine ⟨rfl, ?_⟩
  intro ch hch
  simp only [List.mem_cons, List.not_mem_nil, or_false] at hch
  rcases hch with hch | hch | hch <;> subst hch
  · exact chan_shape_range img H W (fun p => p.1) hH hW
      (fun row hr p hp => (hpx row hr p hp).1)
  · exact chan_shape_range img H W (fun p => p.2.1) hH hW
      (fun row hr p hp => (hpx row hr p hp).2.1)
  · exact chan_shape_range img H W (fun p => p.2.2) hH hW
      (fun row hr p hp => (hpx row hr p hp).2.2)

/-- Witness for C6: the property at a concrete 1 × 1 image. -/
theorem pillow_img_to_torch_image_shape_range_w :
    (pillow_img_to_torch_image [[(0, 128, 255)]]).length = 1 ∧
    ∀ t ∈ pillow_img_to_torch_image [[(0, 128, 255)]], t.length = 3 ∧
      ∀ ch ∈ t, ch.length = 1 ∧
        ∀ row ∈ ch, row.length = 1 ∧
          ∀ x ∈ row, -1 ≤ x ∧ x ≤ 1 :=
  pillow_img_to_torch_image_shape_range [[(0, 128, 255)]] 1 1
    (by unfold RGBImageWF; decide)

/-- C9: `fix_torch_nn_layer_norm` and `fix_torch_group_norm` restore
`functional.layer_norm` (respectively `functional.group_norm`) to the
exact object installed before entry, on every exit path — the body is an
arbitrary state transformer that may itself reassign the slots and may
raise (return `.error`), and the body's result is passed through
unchanged in both cases. -/
theorem fix_torch_norm_patches_restore {F α : Type} (fixedLayerNorm : F)
    (wrap : F → F) (body : TorchFunctional F → Except PyExc α × TorchFunctional F)
    (s : TorchFunctional F) :
    ((fix_torch_nn_layer_norm fixedLayerNorm body s).2.layer_norm = s.layer_norm ∧
     (fix_torch_nn_layer_norm fixedLayerNorm body s).1 =
       (body { s with layer_norm := fixedLayerNorm }).1) ∧
    ((fix_torch_group_norm wrap body s).2.group_norm = s.group_norm ∧
     (fix_torch_group_norm wrap body s).1 =
       (body { s with group_norm := wrap s.group_norm }).1) :=
  ⟨⟨rfl, rfl⟩, ⟨rfl, rfl⟩⟩

/-- C7: the count of top-level function definitions in the module.  The
module defines fifteen distinct functions at its top level, not
thirteen. -/
theorem utils_top_level_functions_count :
    utils_top_level_functions.length = 15 ∧ utils_top_level_functions.Nodup := by
  constructor
  · rfl
  · decide

/-- Counterexample to C7 as stated: the number of top-level functions is
not thirteen. -/
theorem utils_top_level_functions_count_cex :
    utils_top_level_functions.length ≠ 13 := by
  decide
